import Mathlib

/-!
Verification development for the car-brokerage bid platform.

The bid store is embedded as a keyed row store (a function from bid id to an
optional row) plus an append-only history list kept newest-first, matching the
repository's storage layer (server/storage.ts) and the route handlers
(server/routes file). The payment gateway is a parameter: a record of the
three gateway operations the service uses, each returning an Except value so
that a thrown gateway error is an error result that aborts the sequel.
Amount fields, stored as decimal strings in the database, are embedded as
rationals.
-/

namespace CarBrokerage

/-- Rounding a rational to 2 decimal places, used to state the spec's
depositAmount = round(0.10 * maxBid, 2) property. -/
def round2 (q : ℚ) : ℚ := (round (q * 100) : ℤ) / 100

/-- The fixed bid-status enum of updateBidStatusSchema in shared/schema.ts
(the z.enum the status-update route parses against): pending, approved,
rejected, winning, outbid, won, lost. -/
def bidStatusEnum : List String :=
  ["pending", "approved", "rejected", "winning", "outbid", "won", "lost"]

/-- A bid row, after the bids table of the data model. -/
structure Bid where
  id : String
  customerId : String
  lotNumber : String
  maxBidAmount : ℚ
  serviceFee : ℚ
  depositAmount : ℚ
  totalPaid : ℚ
  status : String
  stripePaymentIntentId : Option String := none
  stripeDepositRefundId : Option String := none
  stripeFeeRefundId : Option String := none
  isRefunded : Bool := false
  approvedBy : Option String := none
  approvedAt : Option Nat := none
  rejectedBy : Option String := none
  rejectedAt : Option Nat := none
  notes : Option String := none
  createdAt : Nat := 0
  updatedAt : Nat := 0
deriving DecidableEq, Repr

/-- A bid-history row, after the bid_history table. -/
structure BidHistory where
  id : Nat
  bidId : String
  previousStatus : String
  newStatus : String
  changedBy : String
  notes : Option String := none
  createdAt : Nat := 0
deriving DecidableEq, Repr

/-- The persistent store: bids keyed by id, history newest-first. -/
structure DB where
  bids : String → Option Bid
  bidHistory : List BidHistory := []
  nextHistoryId : Nat := 0
  nextBidId : Nat := 0

/-- The empty store. -/
def dbEmpty : DB := { bids := fun _ => none }

/-- DatabaseStorage.getBid: select the row with the given id. -/
def getBid (db : DB) (bidId : String) : Option Bid := db.bids bidId

/-- Row update: replace the row stored under the given id. -/
def setBid (db : DB) (bidId : String) (b : Bid) : DB :=
  { db with bids := fun k => if k = bidId then some b else db.bids k }

/-- DatabaseStorage.createBidHistoryEntry: insert a history row, the store
assigning its id; the list is kept newest-first, matching the
createdAt-descending order of getBidHistory. -/
def createBidHistoryEntry (db : DB) (bidId previousStatus newStatus changedBy : String)
    (notes : Option String) (now : Nat) : BidHistory × DB :=
  let entry : BidHistory :=
    { id := db.nextHistoryId, bidId := bidId, previousStatus := previousStatus,
      newStatus := newStatus, changedBy := changedBy, notes := notes, createdAt := now }
  (entry, { db with bidHistory := entry :: db.bidHistory,
                    nextHistoryId := db.nextHistoryId + 1 })

/-- DatabaseStorage.getBidHistory: the history rows of one bid, newest first. -/
def getBidHistory (db : DB) (bidId : String) : List BidHistory :=
  db.bidHistory.filter (fun h => h.bidId == bidId)

/-- JavaScript a || b on an optional string: undefined and the empty string
both fall through to the fallback. -/
def jsOr (a fallback : Option String) : Option String :=
  match a with
  | some s => if s = "" then fallback else some s
  | none => fallback

/-- DatabaseStorage.updateBidStatus: read the current row, write the new
status (and notes via notes || currentBid.notes), then append one history
row recording previous and new status. -/
def updateBidStatus (db : DB) (bidId status employeeId : String)
    (notes : Option String) (now : Nat) : Option Bid × DB :=
  match getBid db bidId with
  | none => (none, db)
  | some currentBid =>
    let updatedBid : Bid :=
      { currentBid with status := status, notes := jsOr notes currentBid.notes,
                        updatedAt := now }
    let db1 := setBid db bidId updatedBid
    let (_, db2) := createBidHistoryEntry db1 bidId currentBid.status status employeeId notes now
    (some updatedBid, db2)

/-- DatabaseStorage.approveBid: set status approved with approver id and
timestamp, then append one history row with the fixed approval note. -/
def approveBid (db : DB) (bidId employeeId : String) (now : Nat) : Option Bid × DB :=
  match getBid db bidId with
  | none => (none, db)
  | some currentBid =>
    let approvedBid : Bid :=
      { currentBid with status := "approved", approvedBy := some employeeId,
                        approvedAt := some now, updatedAt := now }
    let db1 := setBid db bidId approvedBid
    let (_, db2) := createBidHistoryEntry db1 bidId currentBid.status "approved" employeeId
      (some "Bid approved by employee") now
    (some approvedBid, db2)

/-- DatabaseStorage.rejectBid: set status rejected with rejecter id,
timestamp and notes, then append one history row carrying the notes. -/
def rejectBid (db : DB) (bidId employeeId notes : String) (now : Nat) : Option Bid × DB :=
  match getBid db bidId with
  | none => (none, db)
  | some currentBid =>
    let rejectedBid : Bid :=
      { currentBid with status := "rejected", rejectedBy := some employeeId,
                        rejectedAt := some now, notes := some notes, updatedAt := now }
    let db1 := setBid db bidId rejectedBid
    let (_, db2) := createBidHistoryEntry db1 bidId currentBid.status "rejected" employeeId
      (some notes) now
    (some rejectedBid, db2)

/-- The optional payment fields accepted by updateBidPaymentInfo; a none
field means the key is absent from the update and the stored value keeps. -/
structure PaymentInfo where
  stripePaymentIntentId : Option String := none
  stripeDepositRefundId : Option String := none
  stripeFeeRefundId : Option String := none
  isRefunded : Option Bool := none
deriving DecidableEq, Repr

/-- Keep the old optional value unless the update supplies one. -/
def overrideField (new old : Option String) : Option String :=
  match new with
  | some v => some v
  | none => old

/-- DatabaseStorage.updateBidPaymentInfo: overwrite exactly the supplied
payment fields, independent of status. -/
def updateBidPaymentInfo (db : DB) (bidId : String) (info : PaymentInfo) (now : Nat) :
    Option Bid × DB :=
  match getBid db bidId with
  | none => (none, db)
  | some currentBid =>
    let updatedBid : Bid :=
      { currentBid with
          stripePaymentIntentId := overrideField info.stripePaymentIntentId currentBid.stripePaymentIntentId,
          stripeDepositRefundId := overrideField info.stripeDepositRefundId currentBid.stripeDepositRefundId,
          stripeFeeRefundId := overrideField info.stripeFeeRefundId currentBid.stripeFeeRefundId,
          isRefunded := info.isRefunded.getD currentBid.isRefunded,
          updatedAt := now }
    (some updatedBid, setBid db bidId updatedBid)

/-- DatabaseStorage.deleteBid: remove the bid row; the bid's history rows
go with it through the onDelete cascade declared on the bid_id reference of
the bid_history table in shared/schema.ts. -/
def deleteBid (db : DB) (bidId : String) : DB :=
  { db with bids := fun k => if k = bidId then none else db.bids k,
            bidHistory := db.bidHistory.filter (fun h => h.bidId != bidId) }

/-- DatabaseStorage.createBid: insert a row, the store assigning its id and
timestamps; the caller supplies every other field. -/
def createBid (db : DB) (bidData : Bid) (now : Nat) : Bid × DB :=
  let bid : Bid := { bidData with id := toString db.nextBidId, createdAt := now, updatedAt := now }
  (bid, { setBid db bid.id bid with nextBidId := db.nextBidId + 1 })

/-- A gateway refund object; only the id is used by the service. -/
structure Refund where
  id : String
deriving DecidableEq, Repr

/-- A gateway payment intent. -/
structure PaymentIntent where
  id : String
  clientSecret : String
deriving DecidableEq, Repr

/-- The parameters of one refunds.create gateway call: the payment intent and
an optional amount already converted to minor units (cents). -/
structure RefundCall where
  paymentIntentId : String
  amountCents : Option ℤ := none
deriving DecidableEq, Repr

/-- The parameters of one paymentIntents.create gateway call: amount in
cents, currency, and the opaque metadata tags. -/
structure CreateIntentCall where
  amountCents : ℤ
  currency : String
  metadata : List (String × String)
deriving DecidableEq, Repr

/-- The third-party payment gateway, as consumed by StripeService: each
operation either returns a value or throws (an error result). -/
structure StripeGateway where
  paymentIntentsCreate : CreateIntentCall → Except String PaymentIntent
  refundsCreate : RefundCall → Except String Refund
  paymentIntentsRetrieve : String → Except String PaymentIntent

/-- StripeService.createPaymentIntent: convert the amount to cents at the
gateway boundary and call paymentIntents.create; the issued call is returned
alongside the result so gateway traffic is observable. -/
def StripeService.createPaymentIntent (gw : StripeGateway) (amount : ℚ)
    (currency : String) (metadata : List (String × String)) :
    Except String PaymentIntent × CreateIntentCall :=
  let call : CreateIntentCall :=
    { amountCents := round (amount * 100), currency := currency, metadata := metadata }
  (gw.paymentIntentsCreate call, call)

/-- StripeService.createRefund: build the refund parameters, converting the
amount to cents only when a truthy one is supplied (if (amount) is false
for an absent amount and for 0, and an omitted amount means a full refund),
and call refunds.create. -/
def StripeService.createRefund (gw : StripeGateway) (paymentIntentId : String)
    (amount : Option ℚ) : Except String Refund × RefundCall :=
  let call : RefundCall :=
    { paymentIntentId := paymentIntentId,
      amountCents := match amount with
        | some a => if a = 0 then none else some (round (a * 100))
        | none => none }
  (gw.refundsCreate call, call)

/-- StripeService.getPaymentIntent: retrieve an intent by id. -/
def StripeService.getPaymentIntent (gw : StripeGateway) (paymentIntentId : String) :
    Except String PaymentIntent :=
  gw.paymentIntentsRetrieve paymentIntentId

/-- StripeService.refundBidPayment: look the bid up, require a stored
payment-intent id and a clear refunded flag, issue one full refund, and only
then record the refund id under both refund fields and set the refunded
flag. A gateway error aborts before the store is touched. The third
component lists the refunds.create calls issued. -/
def StripeService.refundBidPayment (gw : StripeGateway) (db : DB) (bidId : String)
    (now : Nat) : Except String Refund × DB × List RefundCall :=
  match getBid db bidId with
  | none => (.error "Bid not found", db, [])
  | some bid =>
    match bid.stripePaymentIntentId with
    | none => (.error "No payment found for this bid", db, [])
    | some pid =>
      if bid.isRefunded then (.error "This bid has already been refunded", db, [])
      else
        match StripeService.createRefund gw pid none with
        | (.error e, call) => (.error e, db, [call])
        | (.ok refund, call) =>
          let (_, db2) := updateBidPaymentInfo db bidId
            { stripeDepositRefundId := some refund.id, stripeFeeRefundId := some refund.id,
              isRefunded := some true } now
          (.ok refund, db2, [call])

/-- An HTTP-level route outcome: res.status(code).json carrying either a
success body or an error message. -/
inductive Resp (α : Type) where
  | ok (code : Nat) (body : α)
  | err (code : Nat) (message : String)
deriving DecidableEq, Repr

/-- The success body of a route outcome, when there is one. -/
def respBody {α : Type} : Resp α → Option α
  | .ok _ b => some b
  | .err _ _ => none

/-- JavaScript a || b on strings: an empty message falls through. -/
def strOr (a fallback : String) : String := if a = "" then fallback else a

/-- The bid-creation payload of insertBidSchema in shared/schema.ts: the
insertable bids columns minus the omitted id, timestamps,
approval/rejection fields, payment-reference fields and isRefunded. The
client thus supplies customer id, lot number, max bid, deposit and total;
serviceFee and status carry database column defaults (215.00 and pending)
and notes is nullable, so those three are optional. The decimal columns,
strings in the source, are embedded as rationals. -/
structure InsertBid where
  customerId : String
  lotNumber : String
  maxBidAmount : ℚ
  serviceFee : Option ℚ := none
  depositAmount : ℚ
  totalPaid : ℚ
  status : Option String := none
  notes : Option String := none
deriving DecidableEq, Repr

/-- The refinements insertBidSchema adds on top of the column types: the
lot number must be non-empty and the max bid amount must parse to a
positive number; parse throws a ZodError otherwise. No constraint relates
depositAmount or totalPaid to the other fields. -/
def insertBidValid (p : InsertBid) : Prop :=
  1 ≤ p.lotNumber.length ∧ 0 < p.maxBidAmount

instance (p : InsertBid) : Decidable (insertBidValid p) := by
  unfold insertBidValid
  infer_instance

/-- The bid row a validated payload denotes, applying the bids-table column
defaults for omitted serviceFee and status, before the route's overrides
and the store's id and timestamps. -/
def InsertBid.toBid (p : InsertBid) : Bid :=
  { id := "", customerId := p.customerId, lotNumber := p.lotNumber,
    maxBidAmount := p.maxBidAmount, serviceFee := p.serviceFee.getD 215,
    depositAmount := p.depositAmount, totalPaid := p.totalPaid,
    status := p.status.getD "pending", notes := p.notes }

/-- POST /api/customer/bids: parse the body with insertBidSchema (a
ZodError answers 400), spread the validated payload, overriding the
customer id with the caller's, the status with pending and the refunded
flag with false, insert, and answer 201 with the created bid. -/
def createBidRoute (db : DB) (payload : InsertBid) (customerId : String) (now : Nat) :
    Resp Bid × DB :=
  if insertBidValid payload then
    let (bid, db2) := createBid db
      { payload.toBid with customerId := customerId, status := "pending", isRefunded := false } now
    (.ok 201 bid, db2)
  else (.err 400 "Invalid bid data", db)

/-- POST /api/customer/bids/:bidId/create-payment-intent: 404 when the bid is
absent, 403 when not owned by the caller; when an intent id is already
stored, retrieve that intent and answer its client secret without touching
the store; otherwise create an intent over totalPaid with the bid tags,
persist its id, and answer its client secret. Gateway errors become 500. The
third component lists the paymentIntents.create calls issued. -/
def createPaymentIntentRoute (gw : StripeGateway) (db : DB) (bidId customerId : String)
    (now : Nat) : Resp String × DB × List CreateIntentCall :=
  match getBid db bidId with
  | none => (.err 404 "Bid not found", db, [])
  | some bid =>
    if bid.customerId ≠ customerId then (.err 403 "Forbidden", db, [])
    else
      match bid.stripePaymentIntentId with
      | some pid =>
        match StripeService.getPaymentIntent gw pid with
        | .error _ => (.err 500 "Failed to create payment intent", db, [])
        | .ok existingIntent => (.ok 200 existingIntent.clientSecret, db, [])
      | none =>
        match StripeService.createPaymentIntent gw bid.totalPaid "usd"
          [("bidId", bid.id), ("customerId", bid.customerId), ("lotNumber", bid.lotNumber)] with
        | (.error _, call) => (.err 500 "Failed to create payment intent", db, [call])
        | (.ok paymentIntent, call) =>
          let (_, db2) := updateBidPaymentInfo db bidId
            { stripePaymentIntentId := some paymentIntent.id } now
          (.ok 200 paymentIntent.clientSecret, db2, [call])

/-- POST /api/employee/bids/:bidId/refund: 404 when the bid is absent, 400
unless the status is outbid or lost, 400 when already refunded; then
delegate to StripeService.refundBidPayment, whose thrown errors surface as
500 with the error message. The third component lists the refunds.create
calls issued. -/
def refundBidRoute (gw : StripeGateway) (db : DB) (bidId : String) (now : Nat) :
    Resp Refund × DB × List RefundCall :=
  match getBid db bidId with
  | none => (.err 404 "Bid not found", db, [])
  | some bid =>
    if bid.status ≠ "outbid" ∧ bid.status ≠ "lost" then
      (.err 400 "Only outbid or lost bids can be refunded", db, [])
    else if bid.isRefunded then (.err 400 "Bid has already been refunded", db, [])
    else
      match StripeService.refundBidPayment gw db bidId now with
      | (.error e, db2, calls) => (.err 500 (strOr e "Failed to process refund"), db2, calls)
      | (.ok refund, db2, calls) => (.ok 200 refund, db2, calls)

/-- POST /api/employee/bids/:bidId/approve: 404 when the bid is absent, 400
unless its status is pending, then approve and answer the approved bid. -/
def approveBidRoute (db : DB) (bidId employeeId : String) (now : Nat) :
    Resp (Option Bid) × DB :=
  match getBid db bidId with
  | none => (.err 404 "Bid not found", db)
  | some bid =>
    if bid.status ≠ "pending" then (.err 400 "Only pending bids can be approved", db)
    else
      let (approvedBid, db2) := approveBid db bidId employeeId now
      (.ok 200 approvedBid, db2)

/-- POST /api/employee/bids/:bidId/reject: 400 when the notes are missing or
trim to the empty string (this check precedes the bid lookup), 404 when the
bid is absent, 400 unless its status is pending, then reject. -/
def rejectBidRoute (db : DB) (bidId : String) (notes : Option String)
    (employeeId : String) (now : Nat) : Resp (Option Bid) × DB :=
  match notes with
  | none => (.err 400 "Rejection reason is required", db)
  | some s =>
    if s.trim = "" then (.err 400 "Rejection reason is required", db)
    else
      match getBid db bidId with
      | none => (.err 404 "Bid not found", db)
      | some bid =>
        if bid.status ≠ "pending" then (.err 400 "Only pending bids can be rejected", db)
        else
          let (rejectedBid, db2) := rejectBid db bidId employeeId s now
          (.ok 200 rejectedBid, db2)

/-- PATCH /api/employee/bids/:bidId/status: 400 when the requested status is
outside the enum (updateBidStatusSchema), 404 when the bid is absent, then
update unconditionally and answer the updated bid. -/
def updateBidStatusRoute (db : DB) (bidId status : String) (notes : Option String)
    (employeeId : String) (now : Nat) : Resp (Option Bid) × DB :=
  if status ∈ bidStatusEnum then
    match getBid db bidId with
    | none => (.err 404 "Bid not found", db)
    | some _ =>
      let (updatedBid, db2) := updateBidStatus db bidId status employeeId notes now
      (.ok 200 updatedBid, db2)
  else (.err 400 "Invalid status update data", db)

/-- DELETE /api/employee/bids/:bidId: 404 when the bid is absent, 400 unless
its status is won or lost, then delete the row. -/
def deleteBidRoute (db : DB) (bidId : String) : Resp String × DB :=
  match getBid db bidId with
  | none => (.err 404 "Bid not found", db)
  | some bid =>
    if bid.status ≠ "won" ∧ bid.status ≠ "lost" then
      (.err 400 "Only won or lost bids can be deleted", db)
    else (.ok 200 "Bid deleted successfully", deleteBid db bidId)

/-! Concrete fixtures used by witnesses and counterexamples. -/

/-- A gateway on which every operation succeeds with fixed objects. -/
def gwOk : StripeGateway :=
  { paymentIntentsCreate := fun _ => .ok { id := "pi_new", clientSecret := "sec_new" },
    refundsCreate := fun _ => .ok { id := "re_1" },
    paymentIntentsRetrieve := fun pid => .ok { id := pid, clientSecret := "sec_old" } }

/-- A gateway on which every operation throws. -/
def gwDown : StripeGateway :=
  { paymentIntentsCreate := fun _ => .error "gateway down",
    refundsCreate := fun _ => .error "gateway down",
    paymentIntentsRetrieve := fun _ => .error "gateway down" }

/-- A lost, paid, unrefunded bid. -/
def bidLost : Bid :=
  { id := "b1", customerId := "c1", lotNumber := "LOT-1", maxBidAmount := 1000,
    serviceFee := 215, depositAmount := 100, totalPaid := 315, status := "lost",
    stripePaymentIntentId := some "pi_0", isRefunded := false }

/-- A store holding only bidLost. -/
def dbLost : DB := { bids := fun k => if k = "b1" then some bidLost else none }

/-- A pending bid with prior notes and no payment intent. -/
def bidPending : Bid :=
  { id := "b1", customerId := "c1", lotNumber := "LOT-1", maxBidAmount := 1000,
    serviceFee := 215, depositAmount := 100, totalPaid := 315, status := "pending",
    notes := some "old" }

/-- A store holding only bidPending. -/
def dbPending : DB := { bids := fun k => if k = "b1" then some bidPending else none }

/-- A creation payload that passes insertBidSchema (non-empty lot, positive
max bid) but whose money fields disagree with the documented formulas:
deposit 0 and total 215 for a 1000 max bid. -/
def payloadLowDeposit : InsertBid :=
  { customerId := "evil", lotNumber := "LOT-1", maxBidAmount := 1000,
    serviceFee := some 215, depositAmount := 0, totalPaid := 215, status := some "won" }

/-- A well-formed creation payload omitting the optional serviceFee and
status, over which the column defaults apply. -/
def payloadRegular : InsertBid :=
  { customerId := "c1", lotNumber := "LOT-1", maxBidAmount := 1000,
    depositAmount := 100, totalPaid := 315 }

/-! Claim theorems. -/

/-- C2 counterexample: a payload with a 1000 max bid and a client-chosen
depositAmount of 0 passes insertBidSchema (which checks only a non-empty
lot number and a positive max bid) and creates a bid whose stored
depositAmount is 0, not the round(0.10 * 1000, 2) = 100 the claim says the
server computes; the server does force status pending. The money fields
are taken from the client, so the claim as stated is false. -/
theorem createBid_client_deposit_counterexample :
    insertBidValid payloadLowDeposit
      ∧ (respBody (createBidRoute dbEmpty payloadLowDeposit "cust" 0).1).map (fun b => b.depositAmount)
        = some 0
      ∧ (respBody (createBidRoute dbEmpty payloadLowDeposit "cust" 0).1).map (fun b => b.status)
        = some "pending"
      ∧ round2 ((10 : ℚ) / 100 * payloadLowDeposit.maxBidAmount) = 100
      ∧ (0 : ℚ) ≠ 100 := by
  refine ⟨by decide, by decide, by decide, ?_, by norm_num⟩
  have hm : payloadLowDeposit.maxBidAmount = 1000 := rfl
  rw [hm, round2, round_eq]
  norm_num

/-- C2 amended: when the payload passes insertBidSchema (non-empty lot
number, positive max bid; no formula checks) creation succeeds with 201 and
status forced to pending, the owning customer id forced to the caller and
the refunded flag to false; serviceFee defaults to 215.00 only when the
payload omits it, and serviceFee, depositAmount and totalPaid are otherwise
stored exactly as supplied by the client; a payload failing the schema is
answered 400. The server does not compute the money fields. -/
theorem create_bid_route_spec (db : DB) (p : InsertBid) (customerId : String) (now : Nat) :
    (insertBidValid p →
      ∃ bid db2, createBidRoute db p customerId now = (.ok 201 bid, db2)
        ∧ bid.lotNumber = p.lotNumber ∧ bid.maxBidAmount = p.maxBidAmount
        ∧ bid.serviceFee = p.serviceFee.getD 215 ∧ bid.depositAmount = p.depositAmount
        ∧ bid.totalPaid = p.totalPaid ∧ bid.status = "pending"
        ∧ bid.customerId = customerId ∧ bid.isRefunded = false
        ∧ getBid db2 bid.id = some bid)
    ∧ (¬ insertBidValid p →
      createBidRoute db p customerId now = (.err 400 "Invalid bid data", db)) := by
  constructor
  · intro hval
    refine ⟨{ p.toBid with customerId := customerId, status := "pending", isRefunded := false, id := toString db.nextBidId, createdAt := now, updatedAt := now },
      (createBid db { p.toBid with customerId := customerId, status := "pending", isRefunded := false } now).2,
      ?_, rfl, rfl, rfl, rfl, rfl, rfl, rfl, rfl, ?_⟩
    · simp [createBidRoute, hval, createBid]
    · simp [createBid, getBid, setBid]
  · intro hval
    simp [createBidRoute, hval]

/-- C9 counterexample: a status update that supplies the empty string as
notes leaves the prior notes in place (JavaScript falsiness of the empty
string), so the notes field is not overwritten with the supplied notes even
though notes were supplied. -/
theorem updateBidStatus_empty_notes_counterexample :
    ((updateBidStatus dbPending "b1" "won" "e1" (some "") 5).1).map (fun b => b.notes)
        = some (some "old")
      ∧ (some "" : Option String) ≠ some "old" := by
  exact ⟨by decide, by decide⟩

/-- C9 amended: on a generic status update the notes field is overwritten
exactly when the supplied notes are a non-empty string; when notes are
omitted or empty the prior notes persist; and in every case all bid fields
other than status, notes and the update timestamp are unchanged. -/
theorem updateBidStatus_notes_frame (db : DB) (bidId status employeeId : String)
    (now : Nat) (cur : Bid) (h : getBid db bidId = some cur) :
    (∀ s, s ≠ "" →
      getBid (updateBidStatus db bidId status employeeId (some s) now).2 bidId
        = some { cur with status := status, notes := some s, updatedAt := now })
    ∧ getBid (updateBidStatus db bidId status employeeId (some "") now).2 bidId
        = some { cur with status := status, updatedAt := now }
    ∧ getBid (updateBidStatus db bidId status employeeId none now).2 bidId
        = some { cur with status := status, updatedAt := now } := by
  have h' : db.bids bidId = some cur := h
  refine ⟨fun s hs => ?_, ?_, ?_⟩
  · simp [updateBidStatus, getBid, h', jsOr, createBidHistoryEntry, setBid, hs]
  · simp [updateBidStatus, getBid, h', jsOr, createBidHistoryEntry, setBid]
  · simp [updateBidStatus, getBid, h', jsOr, createBidHistoryEntry, setBid]

/-- C10: when the gateway refund call throws, refundBidPayment propagates
the error and returns the store exactly as it was: the refunded flag and
both refund-reference fields are untouched, because the store update runs
only after a successful gateway refund. -/
theorem refundBidPayment_gateway_error_state_unchanged (gw : StripeGateway) (db : DB)
    (bidId : String) (now : Nat) (bid : Bid) (pid e : String)
    (hbid : getBid db bidId = some bid)
    (hpid : bid.stripePaymentIntentId = some pid)
    (hnr : bid.isRefunded = false)
    (hgw : gw.refundsCreate { paymentIntentId := pid, amountCents := none } = .error e) :
    StripeService.refundBidPayment gw db bidId now
      = (.error e, db, [{ paymentIntentId := pid, amountCents := none }]) := by
  simp [StripeService.refundBidPayment, hbid, hpid, hnr, StripeService.createRefund, hgw]

/-- C3: each of the three status-changing storage operations, when it
succeeds on an existing bid, appends exactly one new history entry, whose
previousStatus is the bid status read before the call and whose newStatus is
the status the stored bid has after the call. -/
theorem status_ops_append_one_history (db : DB) (bidId employeeId status notesStr : String)
    (notes : Option String) (now : Nat) (cur : Bid) (h : getBid db bidId = some cur) :
    (∃ b2, (updateBidStatus db bidId status employeeId notes now).1 = some b2
      ∧ getBid (updateBidStatus db bidId status employeeId notes now).2 bidId = some b2
      ∧ ∃ e, getBidHistory (updateBidStatus db bidId status employeeId notes now).2 bidId
          = e :: getBidHistory db bidId
        ∧ e.previousStatus = cur.status ∧ e.newStatus = b2.status)
    ∧ (∃ b2, (approveBid db bidId employeeId now).1 = some b2
      ∧ getBid (approveBid db bidId employeeId now).2 bidId = some b2
      ∧ ∃ e, getBidHistory (approveBid db bidId employeeId now).2 bidId
          = e :: getBidHistory db bidId
        ∧ e.previousStatus = cur.status ∧ e.newStatus = b2.status)
    ∧ (∃ b2, (rejectBid db bidId employeeId notesStr now).1 = some b2
      ∧ getBid (rejectBid db bidId employeeId notesStr now).2 bidId = some b2
      ∧ ∃ e, getBidHistory (rejectBid db bidId employeeId notesStr now).2 bidId
          = e :: getBidHistory db bidId
        ∧ e.previousStatus = cur.status ∧ e.newStatus = b2.status) := by
  have h' : db.bids bidId = some cur := h
  refine ⟨⟨{ cur with status := status, notes := jsOr notes cur.notes, updatedAt := now },
      ?_, ?_,
      ⟨{ id := db.nextHistoryId, bidId := bidId, previousStatus := cur.status, newStatus := status, changedBy := employeeId, notes := notes, createdAt := now },
       ?_, rfl, rfl⟩⟩,
    ⟨{ cur with status := "approved", approvedBy := some employeeId, approvedAt := some now, updatedAt := now },
      ?_, ?_,
      ⟨{ id := db.nextHistoryId, bidId := bidId, previousStatus := cur.status, newStatus := "approved", changedBy := employeeId, notes := some "Bid approved by employee", createdAt := now },
       ?_, rfl, rfl⟩⟩,
    ⟨{ cur with status := "rejected", rejectedBy := some employeeId, rejectedAt := some now, notes := some notesStr, updatedAt := now },
      ?_, ?_,
      ⟨{ id := db.nextHistoryId, bidId := bidId, previousStatus := cur.status, newStatus := "rejected", changedBy := employeeId, notes := some notesStr, createdAt := now },
       ?_, rfl, rfl⟩⟩⟩ <;>
    simp [updateBidStatus, approveBid, rejectBid, getBid, h', setBid,
      createBidHistoryEntry, getBidHistory]

/-- C6: for every existing bid and every target status in the fixed enum,
the generic status-update route succeeds with 200 whatever the current
status is, stores the target status, and appends one history entry recording
the previous status, the new status and the acting employee. -/
theorem update_status_route_any_transition (db : DB) (bidId status : String)
    (notes : Option String) (employeeId : String) (now : Nat) (cur : Bid)
    (hmem : status ∈ bidStatusEnum) (h : getBid db bidId = some cur) :
    ∃ b2 db2, updateBidStatusRoute db bidId status notes employeeId now
        = (.ok 200 (some b2), db2)
      ∧ b2.status = status
      ∧ getBid db2 bidId = some b2
      ∧ getBidHistory db2 bidId
        = { id := db.nextHistoryId, bidId := bidId, previousStatus := cur.status,
            newStatus := status, changedBy := employeeId, notes := notes,
            createdAt := now } :: getBidHistory db bidId := by
  have h' : db.bids bidId = some cur := h
  refine ⟨{ cur with status := status, notes := jsOr notes cur.notes, updatedAt := now },
    (updateBidStatus db bidId status employeeId notes now).2, ?_, rfl, ?_, ?_⟩ <;>
    simp [updateBidStatusRoute, hmem, updateBidStatus, getBid, h', setBid,
      createBidHistoryEntry, getBidHistory]

/-- C4: the approve route succeeds exactly on a pending bid: on success it
answers the bid with status approved, approver id and approval timestamp
set, appends one history entry with the fixed note, and a second approve
call on the same bid fails with the only-pending error; on a non-pending
bid it fails with that error at once. -/
theorem approve_route_spec (db : DB) (bidId employeeId : String) (now : Nat) :
    (∀ body db2, approveBidRoute db bidId employeeId now = (.ok 200 body, db2) →
      ∃ cur, getBid db bidId = some cur ∧ cur.status = "pending"
        ∧ body = some { cur with status := "approved", approvedBy := some employeeId, approvedAt := some now, updatedAt := now }
        ∧ getBid db2 bidId = body
        ∧ getBidHistory db2 bidId
          = { id := db.nextHistoryId, bidId := bidId, previousStatus := "pending", newStatus := "approved", changedBy := employeeId, notes := some "Bid approved by employee", createdAt := now }
              :: getBidHistory db bidId
        ∧ (approveBidRoute db2 bidId employeeId now).1
          = .err 400 "Only pending bids can be approved")
    ∧ (∀ cur, getBid db bidId = some cur → cur.status ≠ "pending" →
      approveBidRoute db bidId employeeId now
        = (.err 400 "Only pending bids can be approved", db)) := by
  constructor
  · intro body db2 hok
    cases hb : getBid db bidId with
    | none => simp [approveBidRoute, hb] at hok
    | some cur =>
      by_cases hp : cur.status = "pending"
      · have h' : db.bids bidId = some cur := hb
        refine ⟨cur, rfl, hp, ?_⟩
        simp [approveBidRoute, hb, hp, approveBid, getBid, h', setBid,
          createBidHistoryEntry] at hok
        obtain ⟨hbody, hdb2⟩ := hok
        subst hbody
        subst hdb2
        refine ⟨rfl, ?_, ?_, ?_⟩
        · simp [getBid, setBid]
        · simp [getBidHistory, setBid, hp]
        · simp [approveBidRoute, getBid, setBid]
      · simp [approveBidRoute, hb, hp] at hok
  · intro cur hb hp
    simp [approveBidRoute, hb, hp]

/-- C5: the reject route fails with the missing-reason validation error
whenever the supplied notes are absent or whitespace-only, before any bid
lookup happens, so in particular on every bid status and on absent bids;
when the notes trim non-empty it succeeds only from status pending, and
then answers the bid with status rejected and the rejecter id, rejection
timestamp and notes set. -/
theorem reject_route_spec (db : DB) (bidId employeeId : String) (now : Nat) :
    (∀ notes, notes = none ∨ (∃ s, notes = some s ∧ s.trim = "") →
      rejectBidRoute db bidId notes employeeId now
        = (.err 400 "Rejection reason is required", db))
    ∧ (∀ s body db2, rejectBidRoute db bidId (some s) employeeId now = (.ok 200 body, db2) →
      s.trim ≠ "" ∧ ∃ cur, getBid db bidId = some cur ∧ cur.status = "pending"
        ∧ body = some { cur with status := "rejected", rejectedBy := some employeeId, rejectedAt := some now, notes := some s, updatedAt := now }
        ∧ getBid db2 bidId = body) := by
  constructor
  · rintro notes (rfl | ⟨s, rfl, hs⟩)
    · rfl
    · simp [rejectBidRoute, hs]
  · intro s body db2 hok
    by_cases hs : s.trim = ""
    · simp [rejectBidRoute, hs] at hok
    · refine ⟨hs, ?_⟩
      cases hb : getBid db bidId with
      | none => simp [rejectBidRoute, hs, hb] at hok
      | some cur =>
        by_cases hp : cur.status = "pending"
        · have h' : db.bids bidId = some cur := hb
          simp [rejectBidRoute, hs, hb, hp, rejectBid, getBid, h', setBid,
            createBidHistoryEntry] at hok
          obtain ⟨hbody, hdb2⟩ := hok
          subst hbody
          subst hdb2
          refine ⟨cur, rfl, hp, rfl, ?_⟩
          simp [getBid, setBid]
        · simp [rejectBidRoute, hs, hb, hp] at hok

/-- C8: the delete route succeeds exactly on a bid whose status is won or
lost, failing with the validation error for every other status; after a
successful delete neither the bid nor any of its history rows is reachable
through the fetch-by-id and history queries. -/
theorem delete_route_spec (db : DB) (bidId : String) :
    (∀ msg db2, deleteBidRoute db bidId = (.ok 200 msg, db2) →
      ∃ bid, getBid db bidId = some bid ∧ (bid.status = "won" ∨ bid.status = "lost")
        ∧ getBid db2 bidId = none ∧ getBidHistory db2 bidId = [])
    ∧ (∀ bid, getBid db bidId = some bid → bid.status ≠ "won" → bid.status ≠ "lost" →
      deleteBidRoute db bidId = (.err 400 "Only won or lost bids can be deleted", db)) := by
  constructor
  · intro msg db2 hok
    cases hb : getBid db bidId with
    | none => simp [deleteBidRoute, hb] at hok
    | some bid =>
      by_cases hw : bid.status = "won"
      · refine ⟨bid, rfl, Or.inl hw, ?_⟩
        simp [deleteBidRoute, hb, hw] at hok
        obtain ⟨hmsg, hdb2⟩ := hok
        subst hdb2
        constructor
        · simp [getBid, deleteBid]
        · simp [getBidHistory, deleteBid, List.filter_filter]
      · by_cases hl : bid.status = "lost"
        · refine ⟨bid, rfl, Or.inr hl, ?_⟩
          simp [deleteBidRoute, hb, hw, hl] at hok
          obtain ⟨hmsg, hdb2⟩ := hok
          subst hdb2
          constructor
          · simp [getBid, deleteBid]
          · simp [getBidHistory, deleteBid, List.filter_filter]
        · simp [deleteBidRoute, hb, hw, hl] at hok
  · intro bid hb hw hl
    simp [deleteBidRoute, hb, hw, hl]

/-- C7: creating a payment intent is idempotent. When the bid already
stores an intent id the route re-fetches that intent and answers its client
secret with the store untouched and no create call issued; only when no
intent id is stored does it issue one create call for the amount totalPaid
with the bid tags, persist the new intent id on the bid, and answer the new
client secret. -/
theorem create_payment_intent_idempotent (gw : StripeGateway) (db : DB)
    (bidId customerId : String) (now : Nat) (bid : Bid)
    (hbid : getBid db bidId = some bid) (hown : bid.customerId = customerId) :
    (∀ pid intent, bid.stripePaymentIntentId = some pid →
      gw.paymentIntentsRetrieve pid = .ok intent →
      createPaymentIntentRoute gw db bidId customerId now
        = (.ok 200 intent.clientSecret, db, []))
    ∧ (∀ intent, bid.stripePaymentIntentId = none →
      gw.paymentIntentsCreate { amountCents := round (bid.totalPaid * 100), currency := "usd", metadata := [("bidId", bid.id), ("customerId", bid.customerId), ("lotNumber", bid.lotNumber)] }
        = .ok intent →
      ∃ db2, createPaymentIntentRoute gw db bidId customerId now
          = (.ok 200 intent.clientSecret, db2,
             [{ amountCents := round (bid.totalPaid * 100), currency := "usd", metadata := [("bidId", bid.id), ("customerId", bid.customerId), ("lotNumber", bid.lotNumber)] }])
        ∧ getBid db2 bidId
          = some { bid with stripePaymentIntentId := some intent.id, updatedAt := now }) := by
  have h' : db.bids bidId = some bid := hbid
  subst hown
  constructor
  · intro pid intent hpid hgw
    simp [createPaymentIntentRoute, hbid, hpid,
      StripeService.getPaymentIntent, hgw]
  · intro intent hpid hgw
    refine ⟨(updateBidPaymentInfo db bidId { stripePaymentIntentId := some intent.id } now).2,
      ?_, ?_⟩
    · simp [createPaymentIntentRoute, hbid, hpid,
        StripeService.createPaymentIntent, hgw]
    · simp [updateBidPaymentInfo, getBid, h', overrideField, setBid]

/-- C1: the refund route succeeds only on an existing bid whose status is
outbid or lost, whose refunded flag is clear and which stores a
payment-intent id, answering the corresponding error otherwise; on success
exactly one full (amountless) refund call is issued to the gateway, the
stored bid ends refunded with both refund-reference fields holding that
single refund's id, and an immediate second refund call on the same bid
fails with the already-refunded error. -/
theorem refund_route_spec (gw : StripeGateway) (db : DB) (bidId : String) (now : Nat) :
    (∀ refund db2 calls, refundBidRoute gw db bidId now = (.ok 200 refund, db2, calls) →
      ∃ bid pid, getBid db bidId = some bid
        ∧ (bid.status = "outbid" ∨ bid.status = "lost")
        ∧ bid.isRefunded = false
        ∧ bid.stripePaymentIntentId = some pid
        ∧ calls = [{ paymentIntentId := pid, amountCents := none }]
        ∧ gw.refundsCreate { paymentIntentId := pid, amountCents := none } = .ok refund
        ∧ getBid db2 bidId
          = some { bid with stripeDepositRefundId := some refund.id, stripeFeeRefundId := some refund.id, isRefunded := true, updatedAt := now }
        ∧ (refundBidRoute gw db2 bidId now).1
          = .err 400 "Bid has already been refunded")
    ∧ (getBid db bidId = none →
      refundBidRoute gw db bidId now = (.err 404 "Bid not found", db, []))
    ∧ (∀ bid, getBid db bidId = some bid → bid.status ≠ "outbid" → bid.status ≠ "lost" →
      refundBidRoute gw db bidId now
        = (.err 400 "Only outbid or lost bids can be refunded", db, []))
    ∧ (∀ bid, getBid db bidId = some bid → (bid.status = "outbid" ∨ bid.status = "lost") →
      bid.isRefunded = true →
      refundBidRoute gw db bidId now
        = (.err 400 "Bid has already been refunded", db, []))
    ∧ (∀ bid, getBid db bidId = some bid → (bid.status = "outbid" ∨ bid.status = "lost") →
      bid.isRefunded = false → bid.stripePaymentIntentId = none →
      refundBidRoute gw db bidId now
        = (.err 500 "No payment found for this bid", db, [])) := by
  have hmain : ∀ refund db2 calls,
      refundBidRoute gw db bidId now = (.ok 200 refund, db2, calls) →
      ∃ bid pid, getBid db bidId = some bid
        ∧ (bid.status = "outbid" ∨ bid.status = "lost")
        ∧ bid.isRefunded = false
        ∧ bid.stripePaymentIntentId = some pid
        ∧ calls = [{ paymentIntentId := pid, amountCents := none }]
        ∧ gw.refundsCreate { paymentIntentId := pid, amountCents := none } = .ok refund
        ∧ getBid db2 bidId
          = some { bid with stripeDepositRefundId := some refund.id, stripeFeeRefundId := some refund.id, isRefunded := true, updatedAt := now }
        ∧ (refundBidRoute gw db2 bidId now).1
          = .err 400 "Bid has already been refunded" := by
    intro refund db2 calls hok
    cases hb : getBid db bidId with
    | none => simp [refundBidRoute, hb] at hok
    | some bid =>
      have h' : db.bids bidId = some bid := hb
      by_cases hso : bid.status = "outbid"
      case neg =>
        by_cases hsl : bid.status = "lost"
        case neg => simp [refundBidRoute, hb, hso, hsl] at hok
        case pos =>
          by_cases hr : bid.isRefunded
          case pos => simp [refundBidRoute, hb, hsl, hr] at hok
          case neg =>
            cases hpid : bid.stripePaymentIntentId with
            | none =>
              simp [refundBidRoute, hb, hsl, hr, StripeService.refundBidPayment,
                hpid, strOr] at hok
            | some pid =>
              cases hgw : gw.refundsCreate { paymentIntentId := pid, amountCents := none } with
              | error e =>
                simp [refundBidRoute, hb, hsl, hr, StripeService.refundBidPayment,
                  hpid, StripeService.createRefund, hgw] at hok
              | ok refund2 =>
                refine ⟨bid, pid, rfl, Or.inr hsl, by simpa using hr, hpid, ?_⟩
                simp [refundBidRoute, hb, hsl, hr, StripeService.refundBidPayment,
                  hpid, StripeService.createRefund, hgw, updateBidPaymentInfo,
                  getBid, h', overrideField, setBid] at hok
                obtain ⟨hre, hdb2, hcalls⟩ := hok
                subst hre
                subst hdb2
                subst hcalls
                refine ⟨rfl, hgw, ?_, ?_⟩
                · simp [getBid, setBid, hsl, hpid]
                · simp [refundBidRoute, getBid, setBid]
      case pos =>
        by_cases hr : bid.isRefunded
        case pos => simp [refundBidRoute, hb, hso, hr] at hok
        case neg =>
          cases hpid : bid.stripePaymentIntentId with
          | none =>
            simp [refundBidRoute, hb, hso, hr, StripeService.refundBidPayment,
              hpid, strOr] at hok
          | some pid =>
            cases hgw : gw.refundsCreate { paymentIntentId := pid, amountCents := none } with
            | error e =>
              simp [refundBidRoute, hb, hso, hr, StripeService.refundBidPayment,
                hpid, StripeService.createRefund, hgw] at hok
            | ok refund2 =>
              refine ⟨bid, pid, rfl, Or.inl hso, by simpa using hr, hpid, ?_⟩
              simp [refundBidRoute, hb, hso, hr, StripeService.refundBidPayment,
                hpid, StripeService.createRefund, hgw, updateBidPaymentInfo,
                getBid, h', overrideField, setBid] at hok
              obtain ⟨hre, hdb2, hcalls⟩ := hok
              subst hre
              subst hdb2
              subst hcalls
              refine ⟨rfl, hgw, ?_, ?_⟩
              · simp [getBid, setBid, hso, hpid]
              · simp [refundBidRoute, getBid, setBid]
  refine ⟨hmain, ?_, ?_, ?_, ?_⟩
  · intro hb
    simp [refundBidRoute, hb]
  · intro bid hb hso hsl
    simp [refundBidRoute, hb, hso, hsl]
  · intro bid hb hs hr
    rcases hs with hso | hsl
    · simp [refundBidRoute, hb, hso, hr]
    · simp [refundBidRoute, hb, hsl, hr]
  · intro bid hb hs hr hpid
    rcases hs with hso | hsl
    · simp [refundBidRoute, hb, hso, hr, StripeService.refundBidPayment, hpid, strOr]
    · simp [refundBidRoute, hb, hsl, hr, StripeService.refundBidPayment, hpid, strOr]

/-! Witnesses: each applies its claim theorem at concrete inputs. -/

/-- The stored bid after a successful refund of bidLost. -/
def bidLostRefunded : Bid :=
  { bidLost with stripeDepositRefundId := some "re_1", stripeFeeRefundId := some "re_1", isRefunded := true, updatedAt := 7 }

/-- The store after a successful refund of bidLost. -/
def dbLostRefunded : DB := setBid dbLost "b1" bidLostRefunded

/-- The stored bid after approving bidPending at time 5 by e1. -/
def bidPendingApproved : Bid :=
  { bidPending with status := "approved", approvedBy := some "e1", approvedAt := some 5, updatedAt := 5 }

/-- The store after approving bidPending at time 5 by e1. -/
def dbPendingApproved : DB :=
  { setBid dbPending "b1" bidPendingApproved with
    bidHistory := [{ id := 0, bidId := "b1", previousStatus := "pending", newStatus := "approved", changedBy := "e1", notes := some "Bid approved by employee", createdAt := 5 }],
    nextHistoryId := 1 }

/-- Witness for C1: on the concrete lost, paid, unrefunded bid the refund
succeeds once and the immediate second call fails as already refunded. -/
theorem refund_route_spec_witness :
    (refundBidRoute gwOk dbLostRefunded "b1" 7).1
      = .err 400 "Bid has already been refunded" := by
  obtain ⟨bid, pid, -, -, -, -, -, -, -, h8⟩ :=
    (refund_route_spec gwOk dbLost "b1" 7).1 { id := "re_1" } dbLostRefunded
      [{ paymentIntentId := "pi_0", amountCents := none }] (by rfl)
  exact h8

/-- Witness for C2: the well-formed payload that omits serviceFee creates a
pending bid with the default 215 service fee and the client-supplied
deposit and total. -/
theorem create_bid_route_spec_witness :
    ∃ bid db2, createBidRoute dbEmpty payloadRegular "c1" 0 = (.ok 201 bid, db2)
      ∧ bid.lotNumber = payloadRegular.lotNumber
      ∧ bid.maxBidAmount = payloadRegular.maxBidAmount
      ∧ bid.serviceFee = Option.getD payloadRegular.serviceFee 215
      ∧ bid.depositAmount = payloadRegular.depositAmount
      ∧ bid.totalPaid = payloadRegular.totalPaid
      ∧ bid.status = "pending" ∧ bid.customerId = "c1" ∧ bid.isRefunded = false
      ∧ getBid db2 bid.id = some bid :=
  (create_bid_route_spec dbEmpty payloadRegular "c1" 0).1 (by decide)

/-- Witness for C3: on the concrete pending bid the status update stores the
bid and prepends one matching history entry. -/
theorem status_ops_append_one_history_witness :
    ∃ b2, (updateBidStatus dbPending "b1" "won" "e1" (some "n") 5).1 = some b2
      ∧ getBid (updateBidStatus dbPending "b1" "won" "e1" (some "n") 5).2 "b1" = some b2
      ∧ ∃ e, getBidHistory (updateBidStatus dbPending "b1" "won" "e1" (some "n") 5).2 "b1"
          = e :: getBidHistory dbPending "b1"
        ∧ e.previousStatus = bidPending.status ∧ e.newStatus = b2.status :=
  (status_ops_append_one_history dbPending "b1" "e1" "won" "x" (some "n") 5 bidPending
    (by decide)).1

/-- Witness for C4: approving the concrete approved store again fails with
the only-pending error. -/
theorem approve_route_spec_witness :
    (approveBidRoute dbPendingApproved "b1" "e1" 5).1
      = .err 400 "Only pending bids can be approved" := by
  obtain ⟨cur, -, -, -, -, -, h6⟩ :=
    (approve_route_spec dbPending "b1" "e1" 5).1 (some bidPendingApproved)
      dbPendingApproved (by rfl)
  exact h6

/-- Witness for C5: rejecting with absent notes fails with the
missing-reason error and leaves the store as it was. -/
theorem reject_route_spec_witness :
    rejectBidRoute dbPending "b1" none "e1" 5
      = (.err 400 "Rejection reason is required", dbPending) :=
  (reject_route_spec dbPending "b1" "e1" 5).1 none (Or.inl rfl)

/-- Witness for C6: moving the concrete pending bid straight to won
succeeds and appends the matching history entry. -/
theorem update_status_route_any_transition_witness :
    ∃ b2 db2, updateBidStatusRoute dbPending "b1" "won" (some "n") "e1" 5
        = (.ok 200 (some b2), db2)
      ∧ b2.status = "won"
      ∧ getBid db2 "b1" = some b2
      ∧ getBidHistory db2 "b1"
        = { id := 0, bidId := "b1", previousStatus := "pending", newStatus := "won", changedBy := "e1", notes := some "n", createdAt := 5 }
            :: getBidHistory dbPending "b1" :=
  update_status_route_any_transition dbPending "b1" "won" (some "n") "e1" 5 bidPending
    (by decide) (by decide)

/-- Witness for C7: on the concrete bid with a stored intent id the route
answers the retrieved secret, leaves the store unchanged and issues no
create call. -/
theorem create_payment_intent_idempotent_witness :
    createPaymentIntentRoute gwOk dbLost "b1" "c1" 7 = (.ok 200 "sec_old", dbLost, []) :=
  (create_payment_intent_idempotent gwOk dbLost "b1" "c1" 7 bidLost (by decide) rfl).1
    "pi_0" { id := "pi_0", clientSecret := "sec_old" } rfl rfl

/-- Witness for C8: deleting the concrete lost bid makes it unreachable. -/
theorem delete_route_spec_witness :
    getBid (deleteBid dbLost "b1") "b1" = none
      ∧ getBidHistory (deleteBid dbLost "b1") "b1" = [] := by
  obtain ⟨bid, -, -, h3, h4⟩ :=
    (delete_route_spec dbLost "b1").1 "Bid deleted successfully" (deleteBid dbLost "b1")
      (by rfl)
  exact ⟨h3, h4⟩

/-- Witness for C9: on the concrete pending bid, non-empty supplied notes
overwrite the stored notes. -/
theorem updateBidStatus_notes_frame_witness :
    getBid (updateBidStatus dbPending "b1" "won" "e1" (some "n") 5).2 "b1"
      = some { bidPending with status := "won", notes := some "n", updatedAt := 5 } :=
  (updateBidStatus_notes_frame dbPending "b1" "won" "e1" 5 bidPending (by decide)).1
    "n" (by decide)

/-- Witness for C10: with the failing gateway the refund on the concrete
lost bid errors and the store is returned unchanged. -/
theorem refundBidPayment_gateway_error_state_unchanged_witness :
    StripeService.refundBidPayment gwDown dbLost "b1" 7
      = (.error "gateway down", dbLost, [{ paymentIntentId := "pi_0", amountCents := none }]) :=
  refundBidPayment_gateway_error_state_unchanged gwDown dbLost "b1" 7 bidLost "pi_0"
    "gateway down" (by decide) (by decide) (by decide) rfl

end CarBrokerage
